import Mathlib

/-
  Verification development for pptx2beamer.py: a shallow embedding of the
  color-scheme resolver, background locator, layout model builder,
  coordinate converter and template synthesizer, with theorems settling
  the specification claims.

  Python dicts are embedded as insertion-ordered association lists
  `List (String × β)` with `dictSet` for `d[k] = v` (update in place when
  the key exists, append otherwise).  Optional XML attributes and elements
  are `Option`; Python string truthiness (`if s:`) is `s ≠ ""` on the
  payload of a `some`.  Emitted LaTeX text is embedded as the literal
  strings the program writes, one list element per `f.write`.
-/

namespace Pptx2Beamer

/-- Python `d[k] = v` on an insertion-ordered dict: overwrite the value in
place when the key is present, append a new pair otherwise. -/
def dictSet {β : Type} (m : List (String × β)) (k : String) (v : β) :
    List (String × β) :=
  if (List.lookup k m).isSome then
    m.map (fun p => if p.1 = k then (p.1, v) else p)
  else
    m ++ [(k, v)]

/-- Python `k in d`. -/
def containsKey {β : Type} (m : List (String × β)) (k : String) : Bool :=
  (List.lookup k m).isSome

/- ---------------------------------------------------------------------
   Color scheme resolver (parse_theme_xml, src lines 44-76).
   The colors dict maps a slot name to the `val` attribute of its color
   element; an attribute may be missing, so values are `Option String`.
--------------------------------------------------------------------- -/

/-- A `colors` dict: slot name → color value (the value itself is the
optional `val` attribute read from the XML). -/
abbrev ColorsMap := List (String × Option String)

/-- One child element of `a:clrScheme` as the parser sees it: its tag name,
the optional `a:srgbClr` child with its `val` attribute, and the optional
`a:sysClr` child with its `lastClr` attribute. -/
structure ClrSchemeChild where
  tag : String
  srgbVal : Option (Option String)
  sysLastClr : Option (Option String)

/-- The scheme-slot loop of parse_theme_xml (src lines 50-59): an
`a:srgbClr` child wins, else an `a:sysClr` child contributes its `lastClr`
attribute with default "FFFFFF", else the slot is not recorded. -/
def schemeColors (entries : List ClrSchemeChild) : ColorsMap :=
  entries.foldl
    (fun m e =>
      match e.srgbVal with
      | some v => dictSet m e.tag v
      | none =>
        match e.sysLastClr with
        | some l => dictSet m e.tag (some (l.getD "FFFFFF"))
        | none => m)
    []

/-- One alias-synthesis step of parse_theme_xml (src lines 62-69):
`if aliasKey not in colors and srcKey in colors: colors[aliasKey] =
colors[srcKey]`. -/
def aliasStep (colors : ColorsMap) (aliasKey srcKey : String) : ColorsMap :=
  if ¬ containsKey colors aliasKey ∧ containsKey colors srcKey then
    dictSet colors aliasKey ((List.lookup srcKey colors).getD none)
  else colors

/-- The four alias synthesis steps of parse_theme_xml in source order:
bg1←lt1, bg2←dk1, tx1←dk1, tx2←dk2 (src lines 62-69). -/
def addStandardAliases (colors : ColorsMap) : ColorsMap :=
  aliasStep (aliasStep (aliasStep (aliasStep colors "bg1" "lt1") "bg2" "dk1")
    "tx1" "dk1") "tx2" "dk2"

/-- The custom-color loop of parse_theme_xml (src lines 72-76):
`for i, c in enumerate(root.findall('.//a:srgbClr')): val = c.get('val');
if val and val not in colors.values(): colors['custom' + str(i+1)] = val`.
`vals` is the list of `val` attributes of all found elements in document
order; `i` is the running enumerate index. -/
def addCustomColorsGo (m : ColorsMap) (vals : List (Option String))
    (i : Nat) : ColorsMap :=
  match vals with
  | [] => m
  | v :: rest =>
    let m' :=
      match v with
      | none => m
      | some s =>
        if s ≠ "" ∧ (some s) ∉ m.map Prod.snd then
          dictSet m ("custom" ++ toString (i + 1)) (some s)
        else m
    addCustomColorsGo m' rest (i + 1)

/-- The custom-color loop started at enumerate index 0. -/
def addCustomColors (m : ColorsMap) (vals : List (Option String)) :
    ColorsMap :=
  addCustomColorsGo m vals 0

/-- The whole color side of parse_theme_xml: scheme slots, then the four
standard aliases, then the custom-color scan over the theme subtree. -/
def parseThemeColors (entries : List ClrSchemeChild)
    (customVals : List (Option String)) : ColorsMap :=
  addCustomColors (addStandardAliases (schemeColors entries)) customVals

/- ---------------------------------------------------------------------
   Background locator (find_background_image_in_xml and
   get_image_from_relationship, src lines 343-428).
--------------------------------------------------------------------- -/

/-- The raster/vector extensions accepted by get_image_from_relationship
(src line 423). -/
def imageExtensions : List String :=
  [".emf", ".png", ".jpg", ".jpeg", ".svg", ".bmp"]

/-- Split a character list at every occurrence of `c` (the helper behind
`str.split(c)` on the character level, structurally recursive). -/
def splitCharsAux (c : Char) : List Char → List Char → List (List Char)
  | [], acc => [acc.reverse]
  | ch :: rest, acc =>
    if ch = c then acc.reverse :: splitCharsAux c rest []
    else splitCharsAux c rest (ch :: acc)

/-- ASCII lowercasing of a string (Python `str.lower()` as applied to the
ASCII file names and extensions involved here). -/
def asciiLower (s : String) : String :=
  String.mk (s.data.map Char.toLower)

/-- `target.lower().endswith(e)` computed on character lists. -/
def lowerEndsWith (s e : String) : Bool :=
  List.isSuffixOf e.data (asciiLower s).data

/-- `Path(target).name`: the last slash-separated component of the path. -/
def pathName (target : String) : String :=
  String.mk ((splitCharsAux '/' target.data []).getLastD target.data)

/-- One `Relationship` element of a relationship document: its optional
`Id` attribute and its `Target` attribute (default `''`). -/
structure Relationship where
  id : Option String
  target : String

/-- get_image_from_relationship (src lines 404-428): scan the relationship
elements for a matching `Id`; return the target's file name only when the
target has a known image extension, otherwise keep scanning. -/
def getImageFromRelationship (rels : List Relationship) (r_id : String) :
    Option String :=
  match rels with
  | [] => none
  | rel :: rest =>
    if rel.id = some r_id ∧ rel.target ≠ "" ∧
        imageExtensions.any (fun e => lowerEndsWith rel.target e) then
      some (pathName rel.target)
    else getImageFromRelationship rest r_id

/-- An `a:blip` element with its optional `r:embed` attribute. -/
structure Blip where
  embed : Option String

/-- An `a:blipFill` element with its optional `a:blip` child. -/
structure BlipFill where
  blip : Option Blip

/-- `is_large = cx > 7000000 and cy > 5000000` (src line 385). -/
def is_large (cx cy : Int) : Bool := cx > 7000000 && cy > 5000000

/-- `is_positioned_as_bg = x < 100000 and y < 100000` (src line 386). -/
def is_positioned_as_bg (x y : Int) : Bool := x < 100000 && y < 100000

/-- `if is_large and is_positioned_as_bg` (src line 388): the full
picture-as-background classification. -/
def picClassifiedAsBackground (x y cx cy : Int) : Bool :=
  is_large cx cy && is_positioned_as_bg x y

/-- An `a:xfrm` element: optional `a:off` child with optional `x`/`y`
attributes, optional `a:ext` child with optional `cx`/`cy` attributes. -/
structure SpXfrm where
  off : Option (Option Int × Option Int)
  ext : Option (Option Int × Option Int)

/-- A `p:pic` element as the locator reads it: its optional transform and
its optional `p:blipFill` child. -/
structure PicShape where
  xfrm : Option SpXfrm
  blipFill : Option BlipFill

/-- The fill-pattern loop of find_background_image_in_xml (src lines
350-366): `finds` holds, in order, the `root.find(pattern)` result for each
of the four background patterns; a found `blipFill` whose blip carries a
truthy `r:embed` id that resolves to an image name wins, otherwise the scan
moves to the next pattern. -/
def searchFillPatterns (finds : List (Option BlipFill))
    (rels : List Relationship) : Option String :=
  match finds with
  | [] => none
  | none :: rest => searchFillPatterns rest rels
  | some bf :: rest =>
    match bf.blip with
    | none => searchFillPatterns rest rels
    | some b =>
      match b.embed with
      | none => searchFillPatterns rest rels
      | some r_id =>
        if r_id ≠ "" then
          match getImageFromRelationship rels r_id with
          | some image_name => some image_name
          | none => searchFillPatterns rest rels
        else searchFillPatterns rest rels

/-- The picture loop of find_background_image_in_xml (src lines 368-398):
each picture needs a transform with both `off` and `ext`, must classify as
background, and must carry a blip with a truthy embed id resolving to an
image name; otherwise the loop continues. -/
def scanPictures (pics : List PicShape) (rels : List Relationship) :
    Option String :=
  match pics with
  | [] => none
  | pic :: rest =>
    match pic.xfrm with
    | none => scanPictures rest rels
    | some xf =>
      match xf.off, xf.ext with
      | some off, some ext =>
        let x := off.1.getD 0
        let y := off.2.getD 0
        let cx := ext.1.getD 0
        let cy := ext.2.getD 0
        if is_large cx cy && is_positioned_as_bg x y then
          match pic.blipFill with
          | none => scanPictures rest rels
          | some bf =>
            match bf.blip with
            | none => scanPictures rest rels
            | some b =>
              match b.embed with
              | none => scanPictures rest rels
              | some r_id =>
                if r_id ≠ "" then
                  match getImageFromRelationship rels r_id with
                  | some image_name => some image_name
                  | none => scanPictures rest rels
                else scanPictures rest rels
        else scanPictures rest rels
      | _, _ => scanPictures rest rels

/-- A slide-like document as the locator reads it: the four fill-pattern
find results and the list of all `p:pic` elements in document order. -/
structure SlideDoc where
  fillPatternFinds : List (Option BlipFill)
  pictures : List PicShape

/-- find_background_image_in_xml (src lines 343-402): the fill-pattern
search runs first and returns as soon as it resolves an image; only when
it yields nothing does the picture scan run. -/
def find_background_image_in_xml (doc : SlideDoc)
    (rels : List Relationship) : Option String :=
  match searchFillPatterns doc.fillPatternFinds rels with
  | some image_name => some image_name
  | none => scanPictures doc.pictures rels

/-- The claim C4 premise: the document contains a picture that the
heuristic would classify as background. -/
def hasLargeOriginPicture (pics : List PicShape) : Prop :=
  ∃ pic ∈ pics, ∃ xf o e, pic.xfrm = some xf ∧ xf.off = some o ∧
    xf.ext = some e ∧
    picClassifiedAsBackground (o.1.getD 0) (o.2.getD 0) (e.1.getD 0)
      (e.2.getD 0) = true

/- ---------------------------------------------------------------------
   Layout model builder (parse_slide_layouts, src lines 180-311).
   Only the fields the claims exercise are modelled; styling fields other
   than the color (font size, bold, alignment, anchor) are elided.
--------------------------------------------------------------------- -/

/-- A placeholder position `{x, y, width, height}` in EMU page units. -/
structure PPPosition where
  x : Int
  y : Int
  width : Int
  height : Int
deriving DecidableEq

/-- A `p:ph` element with its optional `type` and `idx` attributes. -/
structure PhElem where
  type : Option String
  idx : Option String

/-- A `p:sp` shape as the placeholder loop reads it: its optional `p:ph`
element, its optional transform, and the `root.find` results of the four
color paths in their fixed priority order (`some v` means the path matched
an element whose `val` attribute is `v`). -/
structure SpShape where
  ph : Option PhElem
  xfrm : Option SpXfrm
  colorFinds : List (Option (Option String))

/-- The placeholder key (src lines 223-227): `type_idx` when the `idx`
attribute (default '0') differs from '0', else the bare type name (default
'body'). -/
def placeholderKey (typeAttr idxAttr : Option String) : String :=
  let ph_type := typeAttr.getD "body"
  let ph_idx := idxAttr.getD "0"
  if ph_idx ≠ "0" then ph_type ++ "_" ++ ph_idx else ph_type

/-- The color-path loop (src lines 259-263): the first path that found an
element wins and contributes that element's `val` attribute, even when the
attribute is absent. -/
def firstColor : List (Option (Option String)) → Option String
  | [] => none
  | some v :: _ => v
  | none :: rest => firstColor rest

/-- Position extraction (src lines 230-240): all coordinates default to
zero; `off` sets x and y, `ext` sets width and height, each only when
present. -/
def spPosition (sp : SpShape) : PPPosition :=
  match sp.xfrm with
  | none => ⟨0, 0, 0, 0⟩
  | some xf =>
    let xy :=
      match xf.off with
      | some o => (o.1.getD 0, o.2.getD 0)
      | none => ((0 : Int), (0 : Int))
    let wh :=
      match xf.ext with
      | some e => (e.1.getD 0, e.2.getD 0)
      | none => ((0 : Int), (0 : Int))
    ⟨xy.1, xy.2, wh.1, wh.2⟩

/-- One entry of `detailed_placeholders` (src lines 294-299). -/
structure DetailedPlaceholder where
  type : String
  index : String
  position : PPPosition
  color : Option String

/-- One iteration of the placeholder loop (src lines 220-299): a shape
without a `p:ph` element is skipped; otherwise the shape's color is stored
in `placeholders` and its full record in `detailed_placeholders`, both
under the same key. -/
def parsePlaceholdersStep
    (acc : List (String × Option String) × List (String × DetailedPlaceholder))
    (sp : SpShape) :
    List (String × Option String) × List (String × DetailedPlaceholder) :=
  match sp.ph with
  | none => acc
  | some ph =>
    let key := placeholderKey ph.type ph.idx
    let c := firstColor sp.colorFinds
    (dictSet acc.1 key c,
     dictSet acc.2 key
       ⟨ph.type.getD "body", ph.idx.getD "0", spPosition sp, c⟩)

/-- The placeholder loop over all `p:sp` shapes of one layout document:
builds the `placeholders` and `detailed_placeholders` dicts. -/
def parsePlaceholders (shapes : List SpShape) :
    List (String × Option String) × List (String × DetailedPlaceholder) :=
  shapes.foldl parsePlaceholdersStep ([], [])

/-- One layout's descriptor as parse_slide_layouts builds it (src lines
199-205 and 290-299).  `detailed_placeholders` is empty exactly when the
Python dict never received the key. -/
structure LayoutData where
  name : String
  color_overrides : List (String × String)
  placeholders : List (String × Option String)
  background_color : Option String
  background_image : Option String
  detailed_placeholders : List (String × DetailedPlaceholder)

/- ---------------------------------------------------------------------
   Coordinate converter (convert_ppt_to_beamer_position, src lines 581-609).
   Positions are EMU integers; the Python float divisions are embedded as
   exact rational divisions.
--------------------------------------------------------------------- -/

/-- The record returned by `convert_ppt_to_beamer_position`. -/
structure BeamerPosition where
  x_rel : ℚ
  y_rel : ℚ
  width_rel : ℚ
  height_rel : ℚ
  x_cm : ℚ
  y_cm : ℚ
  width_cm : ℚ
  height_cm : ℚ

/-- Default argument `paper_width=12192000` of the converter. -/
def default_paper_width : ℚ := 12192000

/-- Default argument `paper_height=6858000` of the converter. -/
def default_paper_height : ℚ := 6858000

/-- `convert_ppt_to_beamer_position(position, paper_width, paper_height)`:
each axis as a fraction of the page size, plus the same fractions scaled to
fixed physical dimensions (25.4 cm × 19.05 cm). -/
def convert_ppt_to_beamer_position (position : PPPosition)
    (paper_width paper_height : ℚ) : BeamerPosition :=
  let x_rel := (position.x : ℚ) / paper_width
  let y_rel := (position.y : ℚ) / paper_height
  let width_rel := (position.width : ℚ) / paper_width
  let height_rel := (position.height : ℚ) / paper_height
  { x_rel := x_rel
    y_rel := y_rel
    width_rel := width_rel
    height_rel := height_rel
    x_cm := x_rel * 25.4
    y_cm := y_rel * 19.05
    width_cm := width_rel * 25.4
    height_cm := height_rel * 19.05 }

/- ---------------------------------------------------------------------
   Template synthesizer (generate_outer_theme, src lines 674-816).
   Each `f.write` of the per-layout code is one emitted string.
--------------------------------------------------------------------- -/

/-- Python truthiness of an optional string value. -/
def truthyS : Option String → Bool
  | none => false
  | some s => s ≠ ""

/-- `overrides.get(k, k)`: the override-chain lookup falling back to the
key itself. -/
def ovGet (overrides : List (String × String)) (k : String) : String :=
  (List.lookup k overrides).getD k

/-- Python `str(x)` on a string-or-None value as an f-string formats it. -/
def pyStrOfOption : Option String → String
  | none => "None"
  | some s => s

/-- The canvas-background line of src line 721. -/
def canvasLine (c : String) : String :=
  "  \\setbeamercolor\x7bbackground canvas\x7d\x7bbg=ppt" ++ c ++ "\x7d\n"

/-- The solid-background block of generate_outer_theme (src lines 714-721):
emits the canvas line only when the layout has a truthy background color
and no truthy background image, resolving the color through the layout's
override map when that map is nonempty. -/
def canvasBackgroundLine (ld : LayoutData) : Option String :=
  if truthyS ld.background_color && !truthyS ld.background_image then
    let bg_color := ld.background_color.getD ""
    let bg_color' :=
      if ld.color_overrides ≠ [] then ovGet ld.color_overrides bg_color
      else bg_color
    some (canvasLine bg_color')
  else none

/-- The template-activation block of generate_outer_theme (src lines
704-712): emitted exactly when `layout_data.get('detailed_placeholders')`
is truthy. -/
def templateActivationLines (ld : LayoutData) (env_name : String) :
    List String :=
  if !ld.detailed_placeholders.isEmpty then
    ["  % ACTIVATE the correct templates for this layout\n",
     "  \\setbeamertemplate\x7bframetitle\x7d[" ++ env_name ++ "]\n",
     "  \\setbeamertemplate\x7bframesubtitle\x7d[" ++ env_name ++ "]\n",
     "  % Original code follows\n"]
  else []

/-- `Path(name).suffix` for the bare file names the locator returns (no
slash): the last dot-separated part, empty when there is no dot. -/
def pathSuffix (name : String) : String :=
  let parts := splitCharsAux '.' name.data []
  if parts.length ≤ 1 then "" else String.mk ('.' :: parts.getLastD [])

/-- `img_path.with_suffix('.pdf')` applied when the suffix lowercases to
`.emf` (src lines 736-737). -/
def beamerImagePath (img : String) : String :=
  if asciiLower (pathSuffix img) = ".emf" then
    img.dropRight (pathSuffix img).length ++ ".pdf"
  else img

/-- The color-rectangle line of the layered composite (src line 747). -/
def colorRectLine (c : String) : String :=
  "      \\put(0,-\\paperheight)\x7b\\textcolor\x7bppt" ++ c ++
    "\x7d\x7b\\rule\x7b\\paperwidth\x7d\x7b\\paperheight\x7d\x7d\x7d\n"

/-- The image line of the layered composite (src line 748). -/
def includeGraphicsLine (p : String) : String :=
  "      \\put(0,-\\paperheight)\x7b\\includegraphics[width=\\paperwidth,height=\\paperheight]\x7b"
    ++ p ++ "\x7d\x7d\n"

/-- The background-image block of generate_outer_theme (src lines 733-757):
with both an image and a truthy color, a layered picture environment whose
color rectangle line precedes its image line; with only an image, a single
full-bleed line; with neither color nor image, an explicit clear; with only
a color, nothing here (the canvas block already handled it). -/
def backgroundLines (ld : LayoutData) : List String :=
  if truthyS ld.background_image then
    let img_path := beamerImagePath (ld.background_image.getD "")
    if truthyS ld.background_color then
      let bg_color := ld.background_color.getD ""
      let bg_color' :=
        if ld.color_overrides ≠ [] then ovGet ld.color_overrides bg_color
        else bg_color
      ["  % Apply background with colored background behind transparent PNG\n",
       "  \\usebackgroundtemplate\x7b%\n",
       "    \\begin\x7bpicture\x7d(0,0)\n",
       colorRectLine bg_color',
       includeGraphicsLine img_path,
       "    \\end\x7bpicture\x7d%\n",
       "  \x7d\n"]
    else
      ["  % Apply background image\n",
       "  \\usebackgroundtemplate\x7b\\includegraphics[width=\\paperwidth,height=\\paperheight]\x7b"
         ++ img_path ++ "\x7d\x7d\n"]
  else if !truthyS ld.background_color then
    ["  \\usebackgroundtemplate\x7b\x7d\n"]
  else []

/-- The frametitle-color block (src lines 762-769): `placeholders.get
('title')` falls back to 'tx2' whenever the stored value is falsy (absent
key, None value, or empty string), then resolves through the override map
when that map is nonempty. -/
def frametitleColorLine (ld : LayoutData) : String :=
  let title_color : Option String :=
    match List.lookup "title" ld.placeholders with
    | some v => v
    | none => none
  let title_color' : String :=
    match title_color with
    | none => "tx2"
    | some s => if s = "" then "tx2" else s
  let title_color'' :=
    if ld.color_overrides ≠ [] then ovGet ld.color_overrides title_color'
    else title_color'
  "  \\setbeamercolor\x7bframetitle\x7d\x7bfg=ppt" ++ title_color'' ++ "\x7d\n"

/-- The item-color block (src lines 772-775): `placeholders.get('body',
'tx2')` yields the stored value (possibly None) when the key is present and
'tx2' only when the key is absent; a None value passes through the override
lookup unchanged and is formatted as the literal "None". -/
def itemColorLine (ld : LayoutData) : String :=
  let body_color : Option String :=
    match List.lookup "body" ld.placeholders with
    | some v => v
    | none => some "tx2"
  let body_color' : Option String :=
    if ld.color_overrides ≠ [] then
      match body_color with
      | some s => some (ovGet ld.color_overrides s)
      | none => none
    else body_color
  "  \\setbeamercolor\x7bitem\x7d\x7bfg=ppt" ++ pyStrOfOption body_color' ++
    "\x7d\n"

/- ---------------------------------------------------------------------
   Concrete inputs used by witnesses and counterexamples.
--------------------------------------------------------------------- -/

/-- A layout with a solid background color "foo", no image and no
overrides. -/
def c1ExLayout : LayoutData :=
  { name := "Solid"
    color_overrides := []
    placeholders := []
    background_color := some "foo"
    background_image := none
    detailed_placeholders := [] }

/-- A theme color map that does not define "foo". -/
def c1ExThemeColors : ColorsMap := [("lt1", some "FFFFFF")]

/-- A layout whose background color resolves through a nonempty override
map. -/
def c1WitnessLayout : LayoutData :=
  { name := "Overridden"
    color_overrides := [("bg1", "dk1")]
    placeholders := []
    background_color := some "bg1"
    background_image := none
    detailed_placeholders := [] }

/-- A placeholder shape with a `p:ph` element but no transform at all. -/
def c2ExShape : SpShape :=
  { ph := some { type := some "body", idx := none }
    xfrm := none
    colorFinds := [] }

/-- The layout built from the single transform-less placeholder shape. -/
def c2ExLayout : LayoutData :=
  { name := "NoPosition"
    color_overrides := []
    placeholders := (parsePlaceholders [c2ExShape]).1
    background_color := none
    background_image := none
    detailed_placeholders := (parsePlaceholders [c2ExShape]).2 }

/-- A colors map defining the alias sources used by the C3 witness. -/
def c3ExColors : ColorsMap :=
  [("lt1", some "FFFFFF"), ("dk1", some "000000"), ("dk2", some "111111")]

/-- The relationship document of the C4 witness. -/
def c4ExRels : List Relationship :=
  [{ id := some "rId1", target := "../media/image1.png" }]

/-- Fill-pattern finds whose second pattern carries a resolvable blip. -/
def c4ExFinds : List (Option BlipFill) :=
  [none, some { blip := some { embed := some "rId1" } }, none, none]

/-- A large origin-positioned picture with a resolvable blip. -/
def c4ExPic : PicShape :=
  { xfrm := some { off := some (some 0, some 0)
                   ext := some (some 7000001, some 5000001) }
    blipFill := some { blip := some { embed := some "rId1" } } }

/-- A document with both a fill-pattern reference and a large picture. -/
def c4ExDoc : SlideDoc :=
  { fillPatternFinds := c4ExFinds, pictures := [c4ExPic] }

/-- The same fill-pattern finds with no pictures at all. -/
def c4ExDocNoPics : SlideDoc :=
  { fillPatternFinds := c4ExFinds, pictures := [] }

/-- A layout whose body placeholder exists but carries no color. -/
def c7ExLayout : LayoutData :=
  { name := "BodyNoColor"
    color_overrides := []
    placeholders := [("body", none)]
    background_color := none
    background_image := none
    detailed_placeholders := [] }

/-- A layout with both a solid background color and a background image. -/
def c8ExLayout : LayoutData :=
  { name := "Both"
    color_overrides := [("bg1", "dk1")]
    placeholders := []
    background_color := some "bg1"
    background_image := some "image1.png"
    detailed_placeholders := [] }

/-- A placeholder shape with the given `type`/`idx` attributes whose first
color path matched an element with `val` c. -/
def mkPhShape (typeAttr idxAttr : Option String) (c : Option String) :
    SpShape :=
  { ph := some { type := typeAttr, idx := idxAttr }
    xfrm := none
    colorFinds := [some c] }

/- ---------------------------------------------------------------------
   Association-list lemmas.
--------------------------------------------------------------------- -/

theorem lookup_map_set_self {β : Type} (m : List (String × β)) (k : String)
    (v : β) (h : (List.lookup k m).isSome) :
    List.lookup k (m.map (fun p => if p.1 = k then (p.1, v) else p)) = some v := by
  induction m with
  | nil => simp [List.lookup] at h
  | cons a t ih =>
    obtain ⟨a1, a2⟩ := a
    by_cases hk : a1 = k
    · subst hk
      simp [List.lookup_cons]
    · have hne : (k == a1) = false := by
        rw [beq_eq_false_iff_ne]
        exact fun hh => hk hh.symm
      simp only [List.lookup_cons, hne, Bool.false_eq_true, if_false] at h
      simp [hk, List.lookup_cons, hne]
      exact ih h

theorem lookup_map_set_ne {β : Type} (m : List (String × β)) (k k' : String)
    (v : β) (h : k' ≠ k) :
    List.lookup k' (m.map (fun p => if p.1 = k then (p.1, v) else p)) =
      List.lookup k' m := by
  induction m with
  | nil => simp
  | cons a t ih =>
    obtain ⟨a1, a2⟩ := a
    by_cases hk : a1 = k
    · subst hk
      have hne : (k' == a1) = false := by
        rw [beq_eq_false_iff_ne]
        exact h
      simp [List.lookup_cons, hne]
      exact ih
    · simp only [List.map_cons]
      rw [show ((if (a1, a2).1 = k then ((a1, a2).1, v) else (a1, a2)) = (a1, a2))
        from if_neg hk]
      simp only [List.lookup_cons]
      cases hb : (k' == a1) with
      | true => rfl
      | false => exact ih

theorem lookup_append_right {β : Type} (m l : List (String × β)) (k : String)
    (h : List.lookup k m = none) :
    List.lookup k (m ++ l) = List.lookup k l := by
  induction m with
  | nil => simp
  | cons a t ih =>
    obtain ⟨a1, a2⟩ := a
    simp only [List.cons_append, List.lookup_cons] at h ⊢
    cases hb : (k == a1) with
    | true => simp [hb] at h
    | false =>
      simp only [hb] at h ⊢
      exact ih h

theorem lookup_dictSet_self {β : Type} (m : List (String × β)) (k : String)
    (v : β) : List.lookup k (dictSet m k v) = some v := by
  unfold dictSet
  by_cases h : (List.lookup k m).isSome
  · rw [if_pos h]
    exact lookup_map_set_self m k v h
  · rw [if_neg h]
    have hn : List.lookup k m = none := by
      cases hl : List.lookup k m with
      | none => rfl
      | some w => rw [hl] at h; simp at h
    rw [lookup_append_right m _ k hn]
    simp [List.lookup_cons]

theorem lookup_dictSet_ne {β : Type} (m : List (String × β)) (k k' : String)
    (v : β) (h : k' ≠ k) :
    List.lookup k' (dictSet m k v) = List.lookup k' m := by
  unfold dictSet
  by_cases hs : (List.lookup k m).isSome
  · rw [if_pos hs]
    exact lookup_map_set_ne m k k' v h
  · rw [if_neg hs]
    induction m with
    | nil =>
      have hne : (k' == k) = false := by simp [beq_eq_false_iff_ne, h]
      simp [List.lookup_cons, hne]
    | cons a t ih =>
      obtain ⟨a1, a2⟩ := a
      simp only [List.cons_append, List.lookup_cons]
      cases hb : (k' == a1) with
      | true => rfl
      | false =>
        by_cases ht : (List.lookup k t).isSome
        · exfalso
          apply hs
          simp only [List.lookup_cons]
          cases hkb : (k == a1) with
          | true => simp
          | false => simpa using ht
        · exact ih ht

theorem dictSet_ne_nil {β : Type} (m : List (String × β)) (k : String) (v : β) :
    dictSet m k v ≠ [] := by
  unfold dictSet
  by_cases h : (List.lookup k m).isSome
  · rw [if_pos h]
    cases m with
    | nil => simp [List.lookup] at h
    | cons a t => simp
  · rw [if_neg h]
    simp

/- ---------------------------------------------------------------------
   Alias-step lemmas.
--------------------------------------------------------------------- -/

theorem aliasStep_lookup_other (m : ColorsMap) (aliasKey srcKey k : String)
    (h : k ≠ aliasKey) :
    List.lookup k (aliasStep m aliasKey srcKey) = List.lookup k m := by
  unfold aliasStep
  split
  · exact lookup_dictSet_ne m aliasKey k _ h
  · rfl

theorem containsKey_aliasStep_other (m : ColorsMap)
    (aliasKey srcKey k : String) (h : k ≠ aliasKey) :
    containsKey (aliasStep m aliasKey srcKey) k = containsKey m k := by
  unfold containsKey
  rw [aliasStep_lookup_other m aliasKey srcKey k h]

theorem aliasStep_set (m : ColorsMap) (aliasKey srcKey : String)
    (h1 : containsKey m aliasKey = false) (h2 : containsKey m srcKey = true) :
    List.lookup aliasKey (aliasStep m aliasKey srcKey) =
      List.lookup srcKey m := by
  unfold aliasStep
  rw [if_pos ⟨by simp [h1], h2⟩, lookup_dictSet_self]
  unfold containsKey at h2
  obtain ⟨v, hv⟩ := Option.isSome_iff_exists.mp h2
  rw [hv]
  rfl

theorem aliasStep_skip (m : ColorsMap) (aliasKey srcKey : String)
    (h1 : containsKey m aliasKey = true) :
    aliasStep m aliasKey srcKey = m := by
  unfold aliasStep
  rw [if_neg]
  intro hc
  rw [h1] at hc
  exact hc.1 rfl

theorem aliasStep_nosrc (m : ColorsMap) (aliasKey srcKey : String)
    (h1 : containsKey m srcKey = false) :
    aliasStep m aliasKey srcKey = m := by
  unfold aliasStep
  rw [if_neg]
  intro hc
  rw [h1] at hc
  exact absurd hc.2 (by simp)

/- ---------------------------------------------------------------------
   Claim theorems.
--------------------------------------------------------------------- -/

/-- C3: the resolver sets bg1 to lt1's value, bg2 to dk1's value, tx1 to
dk1's value and tx2 to dk2's value, each only when the alias is absent and
its source slot is present; an alias already defined keeps its value; an
alias whose source is also absent stays absent. -/
theorem c3_alias_synthesis (colors : ColorsMap) :
    (containsKey colors "bg1" = false → containsKey colors "lt1" = true →
      List.lookup "bg1" (addStandardAliases colors) = List.lookup "lt1" colors) ∧
    (containsKey colors "bg1" = true →
      List.lookup "bg1" (addStandardAliases colors) = List.lookup "bg1" colors) ∧
    (containsKey colors "bg1" = false → containsKey colors "lt1" = false →
      containsKey (addStandardAliases colors) "bg1" = false) ∧
    (containsKey colors "bg2" = false → containsKey colors "dk1" = true →
      List.lookup "bg2" (addStandardAliases colors) = List.lookup "dk1" colors) ∧
    (containsKey colors "bg2" = true →
      List.lookup "bg2" (addStandardAliases colors) = List.lookup "bg2" colors) ∧
    (containsKey colors "bg2" = false → containsKey colors "dk1" = false →
      containsKey (addStandardAliases colors) "bg2" = false) ∧
    (containsKey colors "tx1" = false → containsKey colors "dk1" = true →
      List.lookup "tx1" (addStandardAliases colors) = List.lookup "dk1" colors) ∧
    (containsKey colors "tx1" = true →
      List.lookup "tx1" (addStandardAliases colors) = List.lookup "tx1" colors) ∧
    (containsKey colors "tx1" = false → containsKey colors "dk1" = false →
      containsKey (addStandardAliases colors) "tx1" = false) ∧
    (containsKey colors "tx2" = false → containsKey colors "dk2" = true →
      List.lookup "tx2" (addStandardAliases colors) = List.lookup "dk2" colors) ∧
    (containsKey colors "tx2" = true →
      List.lookup "tx2" (addStandardAliases colors) = List.lookup "tx2" colors) ∧
    (containsKey colors "tx2" = false → containsKey colors "dk2" = false →
      containsKey (addStandardAliases colors) "tx2" = false) := by
  have hck1 : ∀ k, k ≠ "bg1" →
      containsKey (aliasStep colors "bg1" "lt1") k = containsKey colors k :=
    fun k hk => containsKey_aliasStep_other colors "bg1" "lt1" k hk
  have hlk1 : ∀ k, k ≠ "bg1" →
      List.lookup k (aliasStep colors "bg1" "lt1") = List.lookup k colors :=
    fun k hk => aliasStep_lookup_other colors "bg1" "lt1" k hk
  refine ⟨?_, ?_, ?_, ?_, ?_, ?_, ?_, ?_, ?_, ?_, ?_, ?_⟩
  · intro h1 h2
    unfold addStandardAliases
    rw [aliasStep_lookup_other _ "tx2" "dk2" "bg1" (by decide),
      aliasStep_lookup_other _ "tx1" "dk1" "bg1" (by decide),
      aliasStep_lookup_other _ "bg2" "dk1" "bg1" (by decide)]
    exact aliasStep_set colors "bg1" "lt1" h1 h2
  · intro h1
    unfold addStandardAliases
    rw [aliasStep_lookup_other _ "tx2" "dk2" "bg1" (by decide),
      aliasStep_lookup_other _ "tx1" "dk1" "bg1" (by decide),
      aliasStep_lookup_other _ "bg2" "dk1" "bg1" (by decide),
      aliasStep_skip colors "bg1" "lt1" h1]
  · intro h1 h2
    unfold addStandardAliases
    rw [containsKey_aliasStep_other _ "tx2" "dk2" "bg1" (by decide),
      containsKey_aliasStep_other _ "tx1" "dk1" "bg1" (by decide),
      containsKey_aliasStep_other _ "bg2" "dk1" "bg1" (by decide),
      aliasStep_nosrc colors "bg1" "lt1" h2]
    exact h1
  · intro h1 h2
    unfold addStandardAliases
    rw [aliasStep_lookup_other _ "tx2" "dk2" "bg2" (by decide),
      aliasStep_lookup_other _ "tx1" "dk1" "bg2" (by decide),
      aliasStep_set _ "bg2" "dk1" (by rw [hck1 "bg2" (by decide)]; exact h1)
        (by rw [hck1 "dk1" (by decide)]; exact h2)]
    exact hlk1 "dk1" (by decide)
  · intro h1
    unfold addStandardAliases
    rw [aliasStep_lookup_other _ "tx2" "dk2" "bg2" (by decide),
      aliasStep_lookup_other _ "tx1" "dk1" "bg2" (by decide),
      aliasStep_skip _ "bg2" "dk1" (by rw [hck1 "bg2" (by decide)]; exact h1)]
    exact hlk1 "bg2" (by decide)
  · intro h1 h2
    unfold addStandardAliases
    rw [containsKey_aliasStep_other _ "tx2" "dk2" "bg2" (by decide),
      containsKey_aliasStep_other _ "tx1" "dk1" "bg2" (by decide),
      aliasStep_nosrc _ "bg2" "dk1" (by rw [hck1 "dk1" (by decide)]; exact h2),
      hck1 "bg2" (by decide)]
    exact h1
  · intro h1 h2
    unfold addStandardAliases
    rw [aliasStep_lookup_other _ "tx2" "dk2" "tx1" (by decide),
      aliasStep_set _ "tx1" "dk1"
        (by rw [containsKey_aliasStep_other _ "bg2" "dk1" "tx1" (by decide),
              hck1 "tx1" (by decide)]
            exact h1)
        (by rw [containsKey_aliasStep_other _ "bg2" "dk1" "dk1" (by decide),
              hck1 "dk1" (by decide)]
            exact h2),
      aliasStep_lookup_other _ "bg2" "dk1" "dk1" (by decide)]
    exact hlk1 "dk1" (by decide)
  · intro h1
    unfold addStandardAliases
    rw [aliasStep_lookup_other _ "tx2" "dk2" "tx1" (by decide),
      aliasStep_skip _ "tx1" "dk1"
        (by rw [containsKey_aliasStep_other _ "bg2" "dk1" "tx1" (by decide),
              hck1 "tx1" (by decide)]
            exact h1),
      aliasStep_lookup_other _ "bg2" "dk1" "tx1" (by decide)]
    exact hlk1 "tx1" (by decide)
  · intro h1 h2
    unfold addStandardAliases
    rw [containsKey_aliasStep_other _ "tx2" "dk2" "tx1" (by decide),
      aliasStep_nosrc _ "tx1" "dk1"
        (by rw [containsKey_aliasStep_other _ "bg2" "dk1" "dk1" (by decide),
              hck1 "dk1" (by decide)]
            exact h2),
      containsKey_aliasStep_other _ "bg2" "dk1" "tx1" (by decide),
      hck1 "tx1" (by decide)]
    exact h1
  · intro h1 h2
    unfold addStandardAliases
    rw [aliasStep_set _ "tx2" "dk2"
        (by rw [containsKey_aliasStep_other _ "tx1" "dk1" "tx2" (by decide),
              containsKey_aliasStep_other _ "bg2" "dk1" "tx2" (by decide),
              hck1 "tx2" (by decide)]
            exact h1)
        (by rw [containsKey_aliasStep_other _ "tx1" "dk1" "dk2" (by decide),
              containsKey_aliasStep_other _ "bg2" "dk1" "dk2" (by decide),
              hck1 "dk2" (by decide)]
            exact h2),
      aliasStep_lookup_other _ "tx1" "dk1" "dk2" (by decide),
      aliasStep_lookup_other _ "bg2" "dk1" "dk2" (by decide)]
    exact hlk1 "dk2" (by decide)
  · intro h1
    unfold addStandardAliases
    rw [aliasStep_skip _ "tx2" "dk2"
        (by rw [containsKey_aliasStep_other _ "tx1" "dk1" "tx2" (by decide),
              containsKey_aliasStep_other _ "bg2" "dk1" "tx2" (by decide),
              hck1 "tx2" (by decide)]
            exact h1),
      aliasStep_lookup_other _ "tx1" "dk1" "tx2" (by decide),
      aliasStep_lookup_other _ "bg2" "dk1" "tx2" (by decide)]
    exact hlk1 "tx2" (by decide)
  · intro h1 h2
    unfold addStandardAliases
    rw [aliasStep_nosrc _ "tx2" "dk2"
        (by rw [containsKey_aliasStep_other _ "tx1" "dk1" "dk2" (by decide),
              containsKey_aliasStep_other _ "bg2" "dk1" "dk2" (by decide),
              hck1 "dk2" (by decide)]
            exact h2),
      containsKey_aliasStep_other _ "tx1" "dk1" "tx2" (by decide),
      containsKey_aliasStep_other _ "bg2" "dk1" "tx2" (by decide),
      hck1 "tx2" (by decide)]
    exact h1

/-- C3 witness: on a concrete scheme defining lt1, dk1 and dk2 but none of
the aliases, bg1 receives lt1's value and tx2 receives dk2's value. -/
theorem c3_alias_synthesis_witness :
    List.lookup "bg1" (addStandardAliases c3ExColors) =
      List.lookup "lt1" c3ExColors ∧
    List.lookup "tx2" (addStandardAliases c3ExColors) =
      List.lookup "dk2" c3ExColors := by
  have h := c3_alias_synthesis c3ExColors
  exact ⟨h.1 (by decide) (by decide),
    h.2.2.2.2.2.2.2.2.2.1 (by decide) (by decide)⟩

/-- C6 counterexample: scanning the values AAAAAA, AAAAAA, BBBBBB over an
empty colors map registers BBBBBB under custom3, not custom2: the skipped
duplicate still consumed its enumerate index, so custom numbers are not
consecutive over unseen values. -/
theorem c6_counterexample :
    List.lookup "custom1"
        (addCustomColors [] [some "AAAAAA", some "AAAAAA", some "BBBBBB"]) =
      some (some "AAAAAA") ∧
    List.lookup "custom2"
        (addCustomColors [] [some "AAAAAA", some "AAAAAA", some "BBBBBB"]) =
      none ∧
    List.lookup "custom3"
        (addCustomColors [] [some "AAAAAA", some "AAAAAA", some "BBBBBB"]) =
      some (some "BBBBBB") := by
  refine ⟨?_, ?_, ?_⟩ <;> rfl

/-- C6 (amended): an unseen nonempty value at enumerate index i is
registered under key custom(i+1); a value already present among the map's
values is skipped but its index is still consumed, so the numbering follows
scan positions over all literal color elements rather than running
consecutively over unseen values. -/
theorem c6_custom_color_numbering (m : ColorsMap) (s : String)
    (rest : List (Option String)) (i : Nat) :
    ((some s) ∈ m.map Prod.snd →
      addCustomColorsGo m (some s :: rest) i = addCustomColorsGo m rest (i + 1)) ∧
    (s ≠ "" → (some s) ∉ m.map Prod.snd →
      addCustomColorsGo m (some s :: rest) i =
        addCustomColorsGo (dictSet m ("custom" ++ toString (i + 1)) (some s))
          rest (i + 1)) := by
  constructor
  · intro hmem
    have hcond : ¬ (s ≠ "" ∧ (some s) ∉ m.map Prod.snd) := fun hc => hc.2 hmem
    show addCustomColorsGo
      (if s ≠ "" ∧ (some s) ∉ m.map Prod.snd then
        dictSet m ("custom" ++ toString (i + 1)) (some s) else m) rest (i + 1) = _
    rw [if_neg hcond]
  · intro h1 h2
    show addCustomColorsGo
      (if s ≠ "" ∧ (some s) ∉ m.map Prod.snd then
        dictSet m ("custom" ++ toString (i + 1)) (some s) else m) rest (i + 1) = _
    rw [if_pos ⟨h1, h2⟩]

/-- C6 witness: a duplicate value is skipped while its index advances. -/
theorem c6_custom_color_numbering_witness :
    addCustomColorsGo [("accent1", some "FF0000")] [some "FF0000"] 0 =
      addCustomColorsGo [("accent1", some "FF0000")] [] 1 :=
  (c6_custom_color_numbering [("accent1", some "FF0000")] "FF0000" [] 0).1
    (by decide)

/-- C1 counterexample: a layout whose solid background color "foo" resolves
to no defined theme color still emits "bg=pptfoo", not the literal "white"
the claim predicts. -/
theorem c1_counterexample :
    canvasBackgroundLine c1ExLayout = some (canvasLine "foo") ∧
    containsKey c1ExThemeColors "foo" = false ∧
    canvasLine "foo" ≠ canvasLine "white" := by
  refine ⟨rfl, rfl, by decide⟩

/-- C1 (amended): for a layout with a truthy solid background color and no
truthy background image, the emitted canvas color is always the color name
passed through the override map (`overrides.get(bg, bg)`); there is no
fallback to "white" — an unresolved name is emitted as-is. -/
theorem c1_canvas_background_resolution (ld : LayoutData) (s : String)
    (hbg : ld.background_color = some s) (hs : s ≠ "")
    (himg : truthyS ld.background_image = false) :
    canvasBackgroundLine ld =
      some (canvasLine (ovGet ld.color_overrides s)) := by
  unfold canvasBackgroundLine
  rw [hbg]
  have hts : truthyS (some s) = true := by simp [truthyS, hs]
  rw [hts, himg]
  simp only [Bool.not_false, Bool.and_self, if_true]
  cases hov : ld.color_overrides with
  | nil => simp [ovGet, List.lookup]
  | cons a t => simp

/-- C1 witness: the amended statement at a concrete layout whose color goes
through a nonempty override map. -/
theorem c1_canvas_background_resolution_witness :
    canvasBackgroundLine c1WitnessLayout =
      some (canvasLine (ovGet c1WitnessLayout.color_overrides "bg1")) :=
  c1_canvas_background_resolution c1WitnessLayout "bg1" rfl (by decide) rfl

theorem templateActivationLines_ne_nil_iff (ld : LayoutData)
    (env_name : String) :
    templateActivationLines ld env_name ≠ [] ↔
      ld.detailed_placeholders ≠ [] := by
  unfold templateActivationLines
  cases hl : ld.detailed_placeholders with
  | nil => simp
  | cons a t => simp

theorem parse_detailed_ne_nil_iff (shapes : List SpShape) :
    ∀ acc, (List.foldl parsePlaceholdersStep acc shapes).2 ≠ [] ↔
      (acc.2 ≠ [] ∨ ∃ sp ∈ shapes, sp.ph.isSome) := by
  induction shapes with
  | nil =>
    intro acc
    simp
  | cons sp rest ih =>
    intro acc
    rw [List.foldl_cons, ih]
    cases hph : sp.ph with
    | none =>
      have hstep : parsePlaceholdersStep acc sp = acc := by
        unfold parsePlaceholdersStep
        rw [hph]
      rw [hstep]
      constructor
      · rintro (h | ⟨sp', hmem, hsome⟩)
        · exact Or.inl h
        · exact Or.inr ⟨sp', List.mem_cons_of_mem sp hmem, hsome⟩
      · rintro (h | ⟨sp', hmem, hsome⟩)
        · exact Or.inl h
        · rcases List.mem_cons.mp hmem with heq | hmem'
          · subst heq
            rw [hph] at hsome
            simp at hsome
          · exact Or.inr ⟨sp', hmem', hsome⟩
    | some ph =>
      constructor
      · intro _
        exact Or.inr ⟨sp, List.mem_cons_self sp rest, by rw [hph]; rfl⟩
      · intro _
        left
        have hstep : (parsePlaceholdersStep acc sp).2 =
            dictSet acc.2 (placeholderKey ph.type ph.idx)
              ⟨ph.type.getD "body", ph.idx.getD "0", spPosition sp,
                firstColor sp.colorFinds⟩ := by
          unfold parsePlaceholdersStep
          rw [hph]
        rw [hstep]
        exact dictSet_ne_nil _ _ _

/-- C2 counterexample: a layout whose only placeholder shape carries no
transform at all (so no position data; its position defaults to zeros)
still activates the layout-specific title/subtitle template, contradicting
the claim that such a layout uses the shared default template. -/
theorem c2_counterexample :
    c2ExShape.xfrm = none ∧
    spPosition c2ExShape = ⟨0, 0, 0, 0⟩ ∧
    templateActivationLines c2ExLayout "noposition" ≠ [] := by
  refine ⟨rfl, rfl, ?_⟩
  rw [templateActivationLines_ne_nil_iff]
  simp [c2ExLayout, parsePlaceholders, parsePlaceholdersStep, c2ExShape,
    dictSet]

/-- C2 (amended): the layout-specific title/subtitle template is activated
iff the layout contains at least one placeholder shape (every parsed
placeholder produces a detailed entry, its position data present or not);
only a layout with no placeholder shapes at all uses the shared default
template. -/
theorem c2_template_mode_selection (shapes : List SpShape)
    (env_name : String) (ld : LayoutData)
    (h : ld.detailed_placeholders = (parsePlaceholders shapes).2) :
    (templateActivationLines ld env_name ≠ [] ↔
      ∃ sp ∈ shapes, sp.ph.isSome) := by
  rw [templateActivationLines_ne_nil_iff, h]
  unfold parsePlaceholders
  rw [parse_detailed_ne_nil_iff shapes ([], [])]
  simp

/-- C2 witness: the amended statement at the concrete transform-less
layout. -/
theorem c2_template_mode_selection_witness :
    templateActivationLines c2ExLayout "noposition" ≠ [] ↔
      ∃ sp ∈ [c2ExShape], sp.ph.isSome :=
  c2_template_mode_selection [c2ExShape] "noposition" c2ExLayout rfl

/-- C4: when the fill-pattern search resolves an image name, the locator
returns exactly that name, and the result does not depend on the document's
pictures in any way — the picture heuristic is never consulted — even when
a large origin-positioned picture is present. -/
theorem c4_fill_pattern_priority (doc docAlt : SlideDoc)
    (rels : List Relationship) (img : String)
    (hsame : docAlt.fillPatternFinds = doc.fillPatternFinds)
    (hfill : searchFillPatterns doc.fillPatternFinds rels = some img)
    (_hpic : hasLargeOriginPicture doc.pictures) :
    find_background_image_in_xml doc rels = some img ∧
    find_background_image_in_xml docAlt rels =
      find_background_image_in_xml doc rels := by
  unfold find_background_image_in_xml
  rw [hsame, hfill]
  exact ⟨rfl, rfl⟩

/-- C4 witness: a document holding both a resolvable fill-pattern reference
and a large origin-positioned picture returns the fill reference, and
deleting every picture does not change the result. -/
theorem c4_fill_pattern_priority_witness :
    find_background_image_in_xml c4ExDoc c4ExRels = some "image1.png" ∧
    find_background_image_in_xml c4ExDocNoPics c4ExRels =
      find_background_image_in_xml c4ExDoc c4ExRels :=
  c4_fill_pattern_priority c4ExDoc c4ExDocNoPics c4ExRels "image1.png" rfl
    (by decide)
    ⟨c4ExPic, by simp [c4ExDoc], ⟨_, _, _, rfl, rfl, rfl, by decide⟩⟩

/-- C7: on a layout whose body placeholder exists but carries no color, the
emitted item color is the literal "pptNone" (Python's None formatted into
the f-string), not the secondary-text default "ppttx2" the claim states;
the title side does default to tx2 as claimed. -/
theorem c7_body_none_color_emission :
    itemColorLine c7ExLayout =
      "  \\setbeamercolor\x7bitem\x7d\x7bfg=pptNone\x7d\n" ∧
    itemColorLine c7ExLayout ≠
      "  \\setbeamercolor\x7bitem\x7d\x7bfg=ppttx2\x7d\n" ∧
    frametitleColorLine c7ExLayout =
      "  \\setbeamercolor\x7bframetitle\x7d\x7bfg=ppttx2\x7d\n" := by
  refine ⟨rfl, by decide, rfl⟩

/-- C8: for every layout with a truthy solid background color and a truthy
background image, the emitted background block contains the opaque color
rectangle line strictly before the image line. -/
theorem c8_color_rect_before_image (ld : LayoutData)
    (hc : truthyS ld.background_color = true)
    (hi : truthyS ld.background_image = true) :
    ∃ n n' c p, n < n' ∧
      (backgroundLines ld).get? n = some (colorRectLine c) ∧
      (backgroundLines ld).get? n' = some (includeGraphicsLine p) := by
  unfold backgroundLines
  simp only [hi, hc, if_true]
  exact ⟨3, 4, _, _, by norm_num, rfl, rfl⟩

/-- C8 witness: the layered composite of a concrete layout with both a
solid color and an image. -/
theorem c8_color_rect_before_image_witness :
    ∃ n n' c p, n < n' ∧
      (backgroundLines c8ExLayout).get? n = some (colorRectLine c) ∧
      (backgroundLines c8ExLayout).get? n' = some (includeGraphicsLine p) :=
  c8_color_rect_before_image c8ExLayout (by decide) (by decide)

/-- C10: a placeholder with explicit index '0' receives the same key as one
with no index attribute (the bare type name), the composite type_idx key
appears only for an index other than '0', and two same-typed shapes with
index '0' and no index collapse into one entry with the later shape's
color. -/
theorem c10_placeholder_key_collapse (t i : String) (c1 c2 : Option String)
    (hi : i ≠ "0") :
    placeholderKey (some t) (some "0") = placeholderKey (some t) none ∧
    placeholderKey (some t) (some "0") = t ∧
    placeholderKey (some t) (some i) = t ++ "_" ++ i ∧
    (parsePlaceholders [mkPhShape (some t) (some "0") c1,
      mkPhShape (some t) none c2]).1 = [(t, c2)] := by
  refine ⟨rfl, ?_, ?_, ?_⟩
  · unfold placeholderKey
    simp
  · unfold placeholderKey
    simp [hi]
  · unfold parsePlaceholders parsePlaceholdersStep mkPhShape placeholderKey
      firstColor
    simp [dictSet, List.lookup]

/-- C10 witness: the key collapse at a concrete body placeholder pair and a
concrete nonzero index. -/
theorem c10_placeholder_key_collapse_witness :
    placeholderKey (some "body") (some "0") =
      placeholderKey (some "body") none ∧
    placeholderKey (some "body") (some "0") = "body" ∧
    placeholderKey (some "body") (some "18") = "body" ++ "_" ++ "18" ∧
    (parsePlaceholders [mkPhShape (some "body") (some "0") (some "AAA"),
      mkPhShape (some "body") none (some "BBB")]).1 =
      [("body", some "BBB")] :=
  c10_placeholder_key_collapse "body" "18" (some "AAA") (some "BBB")
    (by decide)

/-- C5: a picture is classified as background iff its width and height each
strictly exceed the fixed size thresholds (7000000, 5000000 EMU) and its
offsets are each strictly below the origin-proximity threshold (100000 EMU);
at a size threshold exactly the picture is rejected, one unit above it is
accepted. -/
theorem c5_picture_classification_strict_thresholds :
    (∀ x y cx cy : Int,
      picClassifiedAsBackground x y cx cy = true ↔
        (7000000 < cx ∧ 5000000 < cy ∧ x < 100000 ∧ y < 100000)) ∧
    picClassifiedAsBackground 0 0 6999999 5000001 = false ∧
    picClassifiedAsBackground 0 0 7000000 5000001 = false ∧
    picClassifiedAsBackground 0 0 7000001 5000001 = true ∧
    picClassifiedAsBackground 0 0 7000001 4999999 = false ∧
    picClassifiedAsBackground 0 0 7000001 5000000 = false := by
  refine ⟨?_, by decide, by decide, by decide, by decide, by decide⟩
  intro x y cx cy
  simp [picClassifiedAsBackground, is_large, is_positioned_as_bg,
    Bool.and_eq_true, decide_eq_true_eq]
  tauto

/-- C9: at the fixed reference page size, each converted fraction equals the
page-unit coordinate divided by the reference width/height, and the
full-page placeholder {0, 0, 12192000, 6858000} converts to fractional
coordinates {x:0, y:0, width:1, height:1}. -/
theorem c9_converter_fractions :
    (∀ position : PPPosition,
      (convert_ppt_to_beamer_position position default_paper_width
          default_paper_height).x_rel = (position.x : ℚ) / 12192000 ∧
      (convert_ppt_to_beamer_position position default_paper_width
          default_paper_height).y_rel = (position.y : ℚ) / 6858000 ∧
      (convert_ppt_to_beamer_position position default_paper_width
          default_paper_height).width_rel = (position.width : ℚ) / 12192000 ∧
      (convert_ppt_to_beamer_position position default_paper_width
          default_paper_height).height_rel = (position.height : ℚ) / 6858000) ∧
    (convert_ppt_to_beamer_position ⟨0, 0, 12192000, 6858000⟩
        default_paper_width default_paper_height).x_rel = 0 ∧
    (convert_ppt_to_beamer_position ⟨0, 0, 12192000, 6858000⟩
        default_paper_width default_paper_height).y_rel = 0 ∧
    (convert_ppt_to_beamer_position ⟨0, 0, 12192000, 6858000⟩
        default_paper_width default_paper_height).width_rel = 1 ∧
    (convert_ppt_to_beamer_position ⟨0, 0, 12192000, 6858000⟩
        default_paper_width default_paper_height).height_rel = 1 := by
  refine ⟨?_, ?_, ?_, ?_, ?_⟩
  · intro position
    refine ⟨rfl, rfl, rfl, rfl⟩
  · simp [convert_ppt_to_beamer_position, default_paper_width,
      default_paper_height]
  · simp [convert_ppt_to_beamer_position, default_paper_width,
      default_paper_height]
  · norm_num [convert_ppt_to_beamer_position, default_paper_width,
      default_paper_height]
  · norm_num [convert_ppt_to_beamer_position, default_paper_width,
      default_paper_height]

end Pptx2Beamer
